import Mathlib

/-!
Verification of the SH1106 buffered graphics mode (`src/mode/graphics.rs`).

The frame buffer is a list of bytes (each a `Nat` standing for a `u8`,
kept below 256 by every operation).  The `DisplayProperties` collaborator
lives outside the shown sources, so it is modelled from the specification
as a record of the values the graphics mode reads from it
(pre-rotation width and height, column offset, rotation); its transport
side effects are modelled as a list of emitted `TransportOp`s.
-/

namespace SH1106

/-- The four display rotations (`DisplayRotation` in `displayrotation.rs`,
referenced by `graphics.rs`). -/
inductive DisplayRotation where
  | Rotate0
  | Rotate90
  | Rotate180
  | Rotate270
deriving DecidableEq, Repr

/-- Modelled from the spec: the properties collaborator (`DisplayProperties`,
outside the shown sources) reports a pre-rotation geometry
`getSize() → (width, height, columnOffset)` and the current rotation
`getRotation()`.  Only these read-out values matter to the graphics mode, so
the collaborator is a record of them.  Width, height and column offset are
`u8` values in the source. -/
structure DisplayProperties where
  displayWidth : Nat
  displayHeight : Nat
  columnOffset : Nat
  rotation : DisplayRotation
deriving DecidableEq, Repr

/-- `const BUFFER_SIZE: usize = 132 * 64 / 8;` -/
def BUFFER_SIZE : Nat := 132 * 64 / 8

/-- `GraphicsMode` owns the properties handle and the fixed-size byte
buffer `buffer: [u8; BUFFER_SIZE]`. -/
structure GraphicsMode where
  properties : DisplayProperties
  buffer : List Nat
deriving DecidableEq, Repr

/-- `GraphicsMode::new`: wraps the properties and zero-fills the buffer. -/
def GraphicsMode.new (properties : DisplayProperties) : GraphicsMode :=
  { properties := properties, buffer := List.replicate BUFFER_SIZE 0 }

/-- `clear`: `self.buffer = [0; BUFFER_SIZE];` -/
def GraphicsMode.clear (m : GraphicsMode) : GraphicsMode :=
  { m with buffer := List.replicate BUFFER_SIZE 0 }

/-- The first `match` in `set_pixel`: resolves the candidate buffer index,
or `none` when the early `return` fires (coordinate beyond the unrotated
display width). -/
def pixel_idx (rot : DisplayRotation) (displayWidth x y : Nat) : Option Nat :=
  match rot with
  | .Rotate0 | .Rotate180 =>
      if x ≥ displayWidth then none
      else some (y / 8 * displayWidth + x)
  | .Rotate90 | .Rotate270 =>
      if y ≥ displayWidth then none
      else some (x / 8 * displayWidth + y)

/-- The byte index recomputed by the second `match` in `set_pixel`. -/
def pixel_byte_idx (rot : DisplayRotation) (displayWidth x y : Nat) : Nat :=
  match rot with
  | .Rotate0 | .Rotate180 => y / 8 * displayWidth + x
  | .Rotate90 | .Rotate270 => x / 8 * displayWidth + y

/-- The bit position selected by the second `match` in `set_pixel`
(the `bit` value is `1 << pixel_bit_pos`). -/
def pixel_bit_pos (rot : DisplayRotation) (x y : Nat) : Nat :=
  match rot with
  | .Rotate0 | .Rotate180 => y % 8
  | .Rotate90 | .Rotate270 => x % 8

/-- The final read-modify-write on the addressed byte:
`*byte &= !bit` when `value == 0`, `*byte |= bit` otherwise.
`bit = 2 ^ pos` with `pos < 8`, so the `u8` complement `!bit`
is `255 ^^^ bit`. -/
def apply_value (byte bit value : Nat) : Nat :=
  if value = 0 then byte &&& (255 ^^^ bit) else byte ||| bit

/-- `set_pixel(x, y, value)`: resolve the index from the rotation and the
unrotated display width, bail out if a coordinate is out of range or the
index reaches past the buffer, otherwise recompute byte index and bit as
the source's second `match` does and read-modify-write that byte. -/
def GraphicsMode.set_pixel (m : GraphicsMode) (x y value : Nat) : GraphicsMode :=
  let displayWidth := m.properties.displayWidth
  let displayRotation := m.properties.rotation
  match pixel_idx displayRotation displayWidth x y with
  | none => m
  | some idx =>
      if idx ≥ m.buffer.length then m
      else
        let byteIdx := pixel_byte_idx displayRotation displayWidth x y
        let bit := 2 ^ pixel_bit_pos displayRotation x y
        { m with
          buffer := m.buffer.set byteIdx (apply_value (m.buffer.getD byteIdx 0) bit value) }

/-- Modelled from the spec: the transport operations `flush` issues through
the properties collaborator — `setDrawArea((x0,y0),(x1,y1))` followed by
`draw(bytes)`. -/
inductive TransportOp where
  | setDrawArea (start stop : Nat × Nat)
  | draw (data : List Nat)
deriving DecidableEq, Repr

/-- `flush`: reads the pre-rotation dimensions and column offset, programs
the draw area `(column_offset, 0) .. (display_width + column_offset,
display_height)`, then sends `&self.buffer[..length]` with
`length = display_width * display_height / 8`.  The Rust slice
`&self.buffer[..length]` panics when `length` exceeds the buffer length;
that panic is modelled as `none`.  On success the emitted transport
operations are returned together with the (unchanged) mode state. -/
def GraphicsMode.flush (m : GraphicsMode) : Option (List TransportOp × GraphicsMode) :=
  let displayWidth := m.properties.displayWidth
  let displayHeight := m.properties.displayHeight
  let columnOffset := m.properties.columnOffset
  let length := displayWidth * displayHeight / 8
  if length ≤ m.buffer.length then
    some
      ([TransportOp.setDrawArea (columnOffset, 0)
          (displayWidth + columnOffset, displayHeight),
        TransportOp.draw (m.buffer.take length)], m)
  else none

/-- `set_rotation`: forwards the rotation to the properties collaborator
(`self.properties.set_rotation(rot)`), which per the spec stores the new
rotation; the buffer is untouched. -/
def GraphicsMode.set_rotation (m : GraphicsMode) (rot : DisplayRotation) : GraphicsMode :=
  { m with properties := { m.properties with rotation := rot } }

end SH1106

namespace SH1106

/-! ### Helper lemmas -/

theorem getD_replicate_zero : ∀ (n i : Nat), (List.replicate n (0 : Nat)).getD i 0 = 0
  | 0, _ => rfl
  | _ + 1, 0 => rfl
  | n + 1, i + 1 => getD_replicate_zero n i

theorem getD_set_self (l : List Nat) (i : Nat) (a : Nat) (h : i < l.length) :
    (l.set i a).getD i 0 = a := by
  rw [List.getD_eq_getElem?_getD, List.getElem?_set_self h]
  rfl

theorem getD_set_ne (l : List Nat) (i j : Nat) (a : Nat) (h : i ≠ j) :
    (l.set i a).getD j 0 = l.getD j 0 := by
  rw [List.getD_eq_getElem?_getD, List.getElem?_set_ne h, ← List.getD_eq_getElem?_getD]

theorem testBit_255 (k : Nat) : (255 : Nat).testBit k = decide (k < 8) :=
  Nat.testBit_two_pow_sub_one 8 k

theorem apply_value_testBit_self (b k value : Nat) (hk : k < 8) :
    (apply_value b (2 ^ k) value).testBit k = decide (value ≠ 0) := by
  unfold apply_value
  by_cases hv : value = 0
  · simp [hv, Nat.testBit_land, Nat.testBit_xor, testBit_255, hk, Nat.testBit_two_pow_self]
  · simp [hv, Nat.testBit_lor, Nat.testBit_two_pow_self]

theorem apply_value_testBit_ne (b k value j : Nat) (hj : j < 8) (hjk : j ≠ k) :
    (apply_value b (2 ^ k) value).testBit j = b.testBit j := by
  unfold apply_value
  by_cases hv : value = 0
  · simp [hv, Nat.testBit_land, Nat.testBit_xor, testBit_255, hj,
      Nat.testBit_two_pow_of_ne (Ne.symm hjk)]
  · simp [hv, Nat.testBit_lor, Nat.testBit_two_pow_of_ne (Ne.symm hjk)]

theorem pixel_bit_pos_lt (rot : DisplayRotation) (x y : Nat) : pixel_bit_pos rot x y < 8 := by
  cases rot <;> simp [pixel_bit_pos] <;> omega

theorem pixel_byte_idx_of_pixel_idx (rot : DisplayRotation) (w x y idx : Nat)
    (h : pixel_idx rot w x y = some idx) : pixel_byte_idx rot w x y = idx := by
  cases rot <;> simp [pixel_idx, pixel_byte_idx] at h ⊢ <;> exact h.2

theorem set_pixel_of_some (m : GraphicsMode) (x y value idx : Nat)
    (h : pixel_idx m.properties.rotation m.properties.displayWidth x y = some idx)
    (hlen : idx < m.buffer.length) :
    m.set_pixel x y value =
      { m with
        buffer := m.buffer.set idx
          (apply_value (m.buffer.getD idx 0)
            (2 ^ pixel_bit_pos m.properties.rotation x y) value) } := by
  have hb := pixel_byte_idx_of_pixel_idx _ _ _ _ _ h
  simp only [GraphicsMode.set_pixel, h, hb, ge_iff_le, if_neg (Nat.not_le.mpr hlen)]

theorem set_pixel_of_none (m : GraphicsMode) (x y value : Nat)
    (h : pixel_idx m.properties.rotation m.properties.displayWidth x y = none) :
    m.set_pixel x y value = m := by
  simp only [GraphicsMode.set_pixel, h]

theorem set_pixel_of_oversized (m : GraphicsMode) (x y value idx : Nat)
    (h : pixel_idx m.properties.rotation m.properties.displayWidth x y = some idx)
    (hlen : m.buffer.length ≤ idx) :
    m.set_pixel x y value = m := by
  simp only [GraphicsMode.set_pixel, h, ge_iff_le, if_pos hlen]

end SH1106

namespace SH1106

theorem set_pixel_buffer_length (m : GraphicsMode) (x y v : Nat) :
    (m.set_pixel x y v).buffer.length = m.buffer.length := by
  cases hp : pixel_idx m.properties.rotation m.properties.displayWidth x y with
  | none => rw [set_pixel_of_none m x y v hp]
  | some idx =>
      rcases Nat.lt_or_ge idx m.buffer.length with hlt | hge
      · rw [set_pixel_of_some m x y v idx hp hlt]
        exact List.length_set m.buffer idx _
      · rw [set_pixel_of_oversized m x y v idx hp hge]

theorem set_pixel_properties_eq (m : GraphicsMode) (x y v : Nat) :
    (m.set_pixel x y v).properties = m.properties := by
  cases hp : pixel_idx m.properties.rotation m.properties.displayWidth x y with
  | none => rw [set_pixel_of_none m x y v hp]
  | some idx =>
      rcases Nat.lt_or_ge idx m.buffer.length with hlt | hge
      · rw [set_pixel_of_some m x y v idx hp hlt]
      · rw [set_pixel_of_oversized m x y v idx hp hge]

/-! ### Claim theorems -/

set_option maxRecDepth 8192 in
/-- C1: in-bounds pixel writes resolve the buffer address exactly as the spec
states: under 0°/180° rotation `x ≥ displayWidth` is a no-op, otherwise the
byte index is `(y / 8) * displayWidth + x` and the bit is `1 <<< (y % 8)`;
under 90°/270° rotation `y ≥` the unrotated `displayWidth` is a no-op,
otherwise the byte index is `(x / 8) * displayWidth + y` and the bit is
`1 <<< (x % 8)`; and on a 128×64 panel at 0°, `set_pixel 5 3 1` from an
all-zero buffer sets byte 5 to `0x08` and leaves every other byte zero. -/
theorem set_pixel_resolves_address (m : GraphicsMode) (x y value : Nat) :
    ((m.properties.rotation = DisplayRotation.Rotate0 ∨
        m.properties.rotation = DisplayRotation.Rotate180) →
      (m.properties.displayWidth ≤ x → m.set_pixel x y value = m) ∧
      (x < m.properties.displayWidth →
        pixel_idx m.properties.rotation m.properties.displayWidth x y =
          some (y / 8 * m.properties.displayWidth + x) ∧
        pixel_byte_idx m.properties.rotation m.properties.displayWidth x y =
          y / 8 * m.properties.displayWidth + x ∧
        pixel_bit_pos m.properties.rotation x y = y % 8)) ∧
    ((m.properties.rotation = DisplayRotation.Rotate90 ∨
        m.properties.rotation = DisplayRotation.Rotate270) →
      (m.properties.displayWidth ≤ y → m.set_pixel x y value = m) ∧
      (y < m.properties.displayWidth →
        pixel_idx m.properties.rotation m.properties.displayWidth x y =
          some (x / 8 * m.properties.displayWidth + y) ∧
        pixel_byte_idx m.properties.rotation m.properties.displayWidth x y =
          x / 8 * m.properties.displayWidth + y ∧
        pixel_bit_pos m.properties.rotation x y = x % 8)) ∧
    ((GraphicsMode.new ⟨128, 64, 2, DisplayRotation.Rotate0⟩).set_pixel 5 3 1).buffer =
      (List.replicate BUFFER_SIZE 0).set 5 8 := by
  refine ⟨?_, ?_, by decide⟩
  · rintro (hr | hr) <;>
      exact ⟨fun hx => set_pixel_of_none m x y value (by simp [pixel_idx, hr, hx]),
        fun hx => by simp [pixel_idx, pixel_byte_idx, pixel_bit_pos, hr, Nat.not_le.mpr hx]⟩
  · rintro (hr | hr) <;>
      exact ⟨fun hy => set_pixel_of_none m x y value (by simp [pixel_idx, hr, hy]),
        fun hy => by simp [pixel_idx, pixel_byte_idx, pixel_bit_pos, hr, Nat.not_le.mpr hy]⟩

/-- Witness for C1: at rotation 0° on a 128-wide panel, the pixel (5, 3)
resolves to byte index 5 with bit position 3. -/
theorem set_pixel_resolves_address_witness :
    pixel_idx DisplayRotation.Rotate0 128 5 3 = some 5 ∧
    pixel_byte_idx DisplayRotation.Rotate0 128 5 3 = 5 ∧
    pixel_bit_pos DisplayRotation.Rotate0 5 3 = 3 :=
  ((set_pixel_resolves_address
      (GraphicsMode.new ⟨128, 64, 2, DisplayRotation.Rotate0⟩) 5 3 1).1
    (Or.inl rfl)).2 (by decide)

/-- The only no-op guards the code implements: `x ≥ display_width` at
0°/180°, `y ≥ display_width` at 90°/270°, and a resolved index at or beyond
the buffer length.  The display height is never consulted, which is what
makes `set_pixel_out_of_bounds_mutates` below possible. -/
theorem set_pixel_code_guard_noop (m : GraphicsMode) (x y value : Nat)
    (h : ((m.properties.rotation = DisplayRotation.Rotate0 ∨
            m.properties.rotation = DisplayRotation.Rotate180) ∧
          m.properties.displayWidth ≤ x) ∨
        ((m.properties.rotation = DisplayRotation.Rotate90 ∨
            m.properties.rotation = DisplayRotation.Rotate270) ∧
          m.properties.displayWidth ≤ y) ∨
        (∀ idx, pixel_idx m.properties.rotation m.properties.displayWidth x y = some idx →
          m.buffer.length ≤ idx)) :
    m.set_pixel x y value = m := by
  rcases h with ⟨hr | hr, hx⟩ | ⟨hr | hr, hy⟩ | hidx
  · exact set_pixel_of_none m x y value (by simp [pixel_idx, hr, hx])
  · exact set_pixel_of_none m x y value (by simp [pixel_idx, hr, hx])
  · exact set_pixel_of_none m x y value (by simp [pixel_idx, hr, hy])
  · exact set_pixel_of_none m x y value (by simp [pixel_idx, hr, hy])
  · cases hp : pixel_idx m.properties.rotation m.properties.displayWidth x y with
    | none => exact set_pixel_of_none m x y value hp
    | some idx => exact set_pixel_of_oversized m x y value idx hp (hidx idx hp)

set_option maxRecDepth 8192 in
/-- C2 (code bug): on a 128×64 panel at rotation 0°, the pixel (5, 64) lies
outside the display — valid rows are 0..63 — yet `set_pixel 5 64 1` is not a
no-op: the code checks only `x` against the display width and the resolved
index `(64 / 8) * 128 + 5 = 1029` against the 1056-byte buffer, so it sets
bit 0 of buffer byte 1029.  This contradicts the source's own doc comment
("If the X and Y coordinates are out of the bounds of the display, this
method call is a noop") and the claim. -/
theorem set_pixel_out_of_bounds_mutates :
    ((GraphicsMode.new ⟨128, 64, 2,
        DisplayRotation.Rotate0⟩).set_pixel 5 64 1).buffer.getD 1029 0 = 1 ∧
    (GraphicsMode.new ⟨128, 64, 2, DisplayRotation.Rotate0⟩).set_pixel 5 64 1 ≠
      GraphicsMode.new ⟨128, 64, 2, DisplayRotation.Rotate0⟩ :=
  ⟨by decide, by decide⟩

/-- C3: for an in-bounds write, a non-zero value sets the addressed bit and
value 0 clears it; every other bit of the addressed byte and every other
byte of the buffer are preserved, and the buffer length is unchanged. -/
theorem set_pixel_read_modify_write (m : GraphicsMode) (x y value idx : Nat)
    (hidx : pixel_idx m.properties.rotation m.properties.displayWidth x y = some idx)
    (hlen : idx < m.buffer.length) :
    (value ≠ 0 →
      ((m.set_pixel x y value).buffer.getD idx 0).testBit
        (pixel_bit_pos m.properties.rotation x y) = true) ∧
    (value = 0 →
      ((m.set_pixel x y value).buffer.getD idx 0).testBit
        (pixel_bit_pos m.properties.rotation x y) = false) ∧
    (∀ j, j < 8 → j ≠ pixel_bit_pos m.properties.rotation x y →
      ((m.set_pixel x y value).buffer.getD idx 0).testBit j =
        (m.buffer.getD idx 0).testBit j) ∧
    (∀ i, i ≠ idx → (m.set_pixel x y value).buffer.getD i 0 = m.buffer.getD i 0) ∧
    (m.set_pixel x y value).buffer.length = m.buffer.length := by
  rw [set_pixel_of_some m x y value idx hidx hlen]
  have hpos := pixel_bit_pos_lt m.properties.rotation x y
  refine ⟨fun hv => ?_, fun hv => ?_, fun j hj hjk => ?_, fun i hi => ?_, ?_⟩
  · rw [getD_set_self _ _ _ hlen, apply_value_testBit_self _ _ _ hpos]
    simp [hv]
  · rw [getD_set_self _ _ _ hlen, apply_value_testBit_self _ _ _ hpos]
    simp [hv]
  · rw [getD_set_self _ _ _ hlen, apply_value_testBit_ne _ _ _ _ hj hjk]
  · exact getD_set_ne _ _ _ _ (fun hc => hi hc.symm)
  · exact List.length_set m.buffer idx _

set_option maxRecDepth 8192 in
/-- Witness for C3: on a 128×64 panel at 0°, writing value 1 at (5, 3) makes
bit 3 of byte 5 read back as set. -/
theorem set_pixel_read_modify_write_witness :
    (((GraphicsMode.new ⟨128, 64, 2, DisplayRotation.Rotate0⟩).set_pixel 5 3 1).buffer.getD
        5 0).testBit 3 = true :=
  (set_pixel_read_modify_write (GraphicsMode.new ⟨128, 64, 2, DisplayRotation.Rotate0⟩)
      5 3 1 5 (by decide) (by decide)).1 (by decide)

end SH1106

namespace SH1106

/-- C4: for any geometry fitting the buffer, `flush` programs the draw window
columns `[offset, offset + width)`, rows `[0, height)` before the data write,
and then transmits exactly `width * height / 8` bytes taken from the start of
the frame buffer. -/
theorem flush_window_and_payload (m : GraphicsMode)
    (hgeom : m.properties.displayWidth * m.properties.displayHeight / 8 ≤ m.buffer.length) :
    m.flush = some
      ([TransportOp.setDrawArea (m.properties.columnOffset, 0)
          (m.properties.displayWidth + m.properties.columnOffset, m.properties.displayHeight),
        TransportOp.draw (m.buffer.take
          (m.properties.displayWidth * m.properties.displayHeight / 8))], m) ∧
    (m.buffer.take (m.properties.displayWidth * m.properties.displayHeight / 8)).length =
      m.properties.displayWidth * m.properties.displayHeight / 8 := by
  refine ⟨?_, ?_⟩
  · simp only [GraphicsMode.flush, if_pos hgeom]
  · rw [List.length_take]
    exact min_eq_left hgeom

set_option maxRecDepth 8192 in
/-- Witness for C4: on a fresh 128×64 mode with column offset 2, `flush`
programs the window (2,0)..(130,64) and sends the 1024 leading buffer
bytes. -/
theorem flush_window_and_payload_witness :
    (GraphicsMode.new ⟨128, 64, 2, DisplayRotation.Rotate0⟩).flush = some
      ([TransportOp.setDrawArea (2, 0) (130, 64),
        TransportOp.draw
          ((GraphicsMode.new ⟨128, 64, 2, DisplayRotation.Rotate0⟩).buffer.take 1024)],
        GraphicsMode.new ⟨128, 64, 2, DisplayRotation.Rotate0⟩) ∧
    ((GraphicsMode.new ⟨128, 64, 2, DisplayRotation.Rotate0⟩).buffer.take 1024).length =
      1024 :=
  flush_window_and_payload (GraphicsMode.new ⟨128, 64, 2, DisplayRotation.Rotate0⟩)
    (by decide)

/-- C5: `clear` zero-fills the frame buffer in place — afterwards every bit
read from any byte is zero — while the properties are untouched; the
operation is pure (no transport operation in its type) and total. -/
theorem clear_zero_fills (m : GraphicsMode) :
    m.clear.buffer = List.replicate BUFFER_SIZE 0 ∧
    (∀ i j : Nat, (m.clear.buffer.getD i 0).testBit j = false) ∧
    m.clear.properties = m.properties := by
  refine ⟨rfl, fun i j => ?_, rfl⟩
  show ((List.replicate BUFFER_SIZE (0 : Nat)).getD i 0).testBit j = false
  rw [getD_replicate_zero]
  exact Nat.zero_testBit j

/-- C6: the byte index, bit position and bounds filter that `set_pixel`
computes for (a, b) under 0° rotation coincide with those it computes for
(b, a) under 90° rotation, and `set_pixel` never changes the buffer
length. -/
theorem rotation_transpose_equivalence :
    (∀ w a b : Nat,
      pixel_idx DisplayRotation.Rotate0 w a b = pixel_idx DisplayRotation.Rotate90 w b a) ∧
    (∀ w a b : Nat,
      pixel_byte_idx DisplayRotation.Rotate0 w a b =
        pixel_byte_idx DisplayRotation.Rotate90 w b a) ∧
    (∀ a b : Nat, pixel_bit_pos DisplayRotation.Rotate0 a b =
      pixel_bit_pos DisplayRotation.Rotate90 b a) ∧
    (∀ (m : GraphicsMode) (x y v : Nat),
      (m.set_pixel x y v).buffer.length = m.buffer.length) :=
  ⟨fun _ _ _ => rfl, fun _ _ _ => rfl, fun _ _ => rfl, set_pixel_buffer_length⟩

/-- C7: a second `flush` with no intervening mutation transmits exactly the
same transport operations — `flush` leaves the mode state unchanged. -/
theorem flush_transmission_idempotent (m m1 : GraphicsMode) (ops : List TransportOp)
    (h : m.flush = some (ops, m1)) :
    m1 = m ∧ m1.flush = some (ops, m1) := by
  simp only [GraphicsMode.flush] at h
  by_cases hc : m.properties.displayWidth * m.properties.displayHeight / 8 ≤ m.buffer.length
  · rw [if_pos hc] at h
    cases h
    exact ⟨rfl, by simp only [GraphicsMode.flush, if_pos hc]⟩
  · rw [if_neg hc] at h
    exact absurd h (by simp)

set_option maxRecDepth 8192 in
/-- Witness for C7: flushing a fresh 128×64 mode leaves it unchanged and
re-flushing emits the identical operations. -/
theorem flush_transmission_idempotent_witness :
    GraphicsMode.new ⟨128, 64, 2, DisplayRotation.Rotate0⟩ =
      GraphicsMode.new ⟨128, 64, 2, DisplayRotation.Rotate0⟩ ∧
    (GraphicsMode.new ⟨128, 64, 2, DisplayRotation.Rotate0⟩).flush = some
      ([TransportOp.setDrawArea (2, 0) (130, 64),
        TransportOp.draw (List.replicate 1024 0)],
        GraphicsMode.new ⟨128, 64, 2, DisplayRotation.Rotate0⟩) :=
  flush_transmission_idempotent (GraphicsMode.new ⟨128, 64, 2, DisplayRotation.Rotate0⟩)
    (GraphicsMode.new ⟨128, 64, 2, DisplayRotation.Rotate0⟩)
    [TransportOp.setDrawArea (2, 0) (130, 64), TransportOp.draw (List.replicate 1024 0)]
    (by decide)

/-- C8: `set_rotation` forwards the new rotation to the properties
collaborator and leaves every byte of the frame buffer unchanged. -/
theorem set_rotation_forwards_preserves_buffer (m : GraphicsMode) (rot : DisplayRotation) :
    (m.set_rotation rot).properties.rotation = rot ∧ (m.set_rotation rot).buffer = m.buffer :=
  ⟨rfl, rfl⟩

/-- C9: `set_pixel` is total; the byte index recomputed by the second match
always equals the index validated against the buffer length, the properties
are untouched, and the call either leaves the mode unchanged or
read-modify-writes exactly one in-bounds byte. -/
theorem set_pixel_total_index_checked (m : GraphicsMode) (x y value : Nat) :
    (∀ idx, pixel_idx m.properties.rotation m.properties.displayWidth x y = some idx →
      pixel_byte_idx m.properties.rotation m.properties.displayWidth x y = idx) ∧
    (m.set_pixel x y value).properties = m.properties ∧
    (m.set_pixel x y value = m ∨
      ∃ idx, idx < m.buffer.length ∧
        (m.set_pixel x y value).buffer =
          m.buffer.set idx (apply_value (m.buffer.getD idx 0)
            (2 ^ pixel_bit_pos m.properties.rotation x y) value)) := by
  refine ⟨fun idx h => pixel_byte_idx_of_pixel_idx _ _ _ _ _ h,
    set_pixel_properties_eq m x y value, ?_⟩
  cases hp : pixel_idx m.properties.rotation m.properties.displayWidth x y with
  | none => exact Or.inl (set_pixel_of_none m x y value hp)
  | some idx =>
      rcases Nat.lt_or_ge idx m.buffer.length with hlt | hge
      · exact Or.inr ⟨idx, hlt, by rw [set_pixel_of_some m x y value idx hp hlt]⟩
      · exact Or.inl (set_pixel_of_oversized m x y value idx hp hge)

/-- Witness for C9: for (6, 3) at rotation 0° on a 128-wide panel the
recomputed byte index equals the validated index 6. -/
theorem set_pixel_total_index_checked_witness :
    pixel_byte_idx DisplayRotation.Rotate0 128 6 3 = 6 :=
  (set_pixel_total_index_checked
      (GraphicsMode.new ⟨128, 64, 2, DisplayRotation.Rotate0⟩) 6 3 1).1 6 rfl

/-- C10: the frame buffer has fixed length `BUFFER_SIZE = 1056 = 132 * 64 / 8`
throughout the mode's lifetime (construction and every operation preserve
it), and `flush`'s slice of the buffer is out of bounds — modelled as the
panic value `none` — exactly when the reported geometry has
`width * height / 8 > 1056`. -/
theorem buffer_fixed_size_flush_bound (m : GraphicsMode)
    (hm : m.buffer.length = BUFFER_SIZE) :
    BUFFER_SIZE = 1056 ∧
    (∀ props : DisplayProperties, (GraphicsMode.new props).buffer.length = 1056) ∧
    (∀ x y v, (m.set_pixel x y v).buffer.length = BUFFER_SIZE) ∧
    m.clear.buffer.length = BUFFER_SIZE ∧
    (∀ rot, (m.set_rotation rot).buffer.length = BUFFER_SIZE) ∧
    (m.flush = none ↔ 1056 < m.properties.displayWidth * m.properties.displayHeight / 8) := by
  refine ⟨rfl, fun props => List.length_replicate _ _,
    fun x y v => (set_pixel_buffer_length m x y v).trans hm,
    List.length_replicate _ _, fun rot => hm, ?_⟩
  simp only [GraphicsMode.flush, hm]
  by_cases hc : m.properties.displayWidth * m.properties.displayHeight / 8 ≤ BUFFER_SIZE
  · rw [if_pos hc]
    have hc' : m.properties.displayWidth * m.properties.displayHeight / 8 ≤ 1056 := hc
    exact ⟨fun h => absurd h (Option.some_ne_none _), fun h => absurd hc' (by omega)⟩
  · rw [if_neg hc]
    have hc' : ¬ m.properties.displayWidth * m.properties.displayHeight / 8 ≤ 1056 := hc
    exact ⟨fun _ => by omega, fun _ => rfl⟩

/-- Witness for C10: a reported 132×128 geometry needs 2112 bytes, so `flush`
on the 1056-byte buffer hits the out-of-bounds slice (modelled `none`). -/
theorem buffer_fixed_size_flush_bound_witness :
    (GraphicsMode.new ⟨132, 128, 0, DisplayRotation.Rotate0⟩).flush = none :=
  ((buffer_fixed_size_flush_bound (GraphicsMode.new ⟨132, 128, 0, DisplayRotation.Rotate0⟩)
      (List.length_replicate _ _)).2.2.2.2.2).mpr (by decide)

end SH1106
